import Mathlib

/-!
Verification of the stream-index BAM indexer (`src/main.rs`).

The functions `is_coordinate_sorted`, `build_bam_index`, `write_bam_index`,
`get_async_stream_reader` and `handler` are embedded from the source.  The
BAM reader, the `csi::index::Indexer`, the BAI writer and the URL parser are
external library collaborators whose code is not in the repository; they are
modelled from the spec (sections 3, 4.2-4.7 and 6) where their behaviour is
needed, and the input stream is modelled as the sequence of outcomes the
reader hands back to `build_bam_index`.
-/

namespace StreamIndex

/-- Modelled from the spec: the declared sort order of a SAM header
(`sam::header::record::value::map::header::SortOrder`); only the
`coordinate` variant is accepted by the builder. -/
inductive SortOrder where
  | unknown
  | unsorted
  | queryName
  | coordinate
deriving DecidableEq, Repr

/-- Modelled from the spec: the optional `@HD` record of a SAM header with
its optional sort-order field (`hdr.sort_order()` in the source). -/
structure HeaderRecord where
  sort_order : Option SortOrder
deriving DecidableEq, Repr

/-- Modelled from the spec: the parsed SAM header as `build_bam_index` uses
it: the optional `@HD` record (`header.header()`) and the number of declared
reference sequences (`header.reference_sequences().len()`). -/
structure Header where
  header : Option HeaderRecord
  reference_sequences_len : Nat
deriving DecidableEq, Repr

/-- Embedded from `src/main.rs` lines 8-16: true exactly when the header has
an `@HD` record whose sort-order field is present and equals `coordinate`;
both fall-through cases return `false`. -/
def is_coordinate_sorted (header : Header) : Bool :=
  match header.header with
  | some hdr =>
      match hdr.sort_order with
      | some sort_order => sort_order == SortOrder.coordinate
      | none => false
  | none => false

/-- Modelled from the spec: an alignment record as `build_bam_index` reads
it: optional reference sequence id, optional alignment start and end, and
the unmapped flag (`record.flags().is_unmapped()`). -/
structure AlignmentRecord where
  reference_sequence_id : Option Nat
  alignment_start : Option Nat
  alignment_end : Option Nat
  is_unmapped : Bool
deriving DecidableEq, Repr

/-- Embedded from `src/main.rs` lines 31-40: the alignment context passed to
`Indexer::add_record` is `Some` exactly when reference id, start and end are
all present, and then carries `!record.flags().is_unmapped()` as the mapped
flag. -/
def alignment_context (record : AlignmentRecord) : Option (Nat × Nat × Nat × Bool) :=
  match record.reference_sequence_id, record.alignment_start, record.alignment_end with
  | some id, some s, some e => some (id, s, e, !record.is_unmapped)
  | _, _, _ => none

/-- Modelled from the spec (section 3): a chunk is an ordered pair of
virtual offsets bounding a record's on-disk bytes; offsets are 64-bit
values with plain numeric ordering, modelled as `Nat`. -/
structure Chunk where
  start : Nat
  end_ : Nat
deriving DecidableEq, Repr

/-- Modelled from the spec (section 4.5): per-reference metadata with
mapped/unmapped counts and first/last offset bounds. -/
structure Metadata where
  mapped_count : Nat
  unmapped_count : Nat
  first_offset : Option Nat
  last_offset : Option Nat
deriving DecidableEq, Repr

def Metadata.empty : Metadata :=
  { mapped_count := 0, unmapped_count := 0, first_offset := none, last_offset := none }

/-- Modelled from the spec (section 3): one reference's in-flight state:
bin-id-to-chunk-list table, sparse linear index entries, and metadata. -/
structure ReferenceIndexState where
  bins : List (Nat × List Chunk)
  linear : List (Nat × Nat)
  metadata : Metadata
deriving DecidableEq, Repr

def ReferenceIndexState.empty : ReferenceIndexState :=
  { bins := [], linear := [], metadata := Metadata.empty }

/-- Modelled from the spec (section 4.2): the standard 5-level hierarchical
bin of an interval, with shift amounts 26, 23, 20, 17, 14; zero-length or
degenerate intervals map to bin 0 by convention. -/
def bin_of (start end_ : Nat) : Nat :=
  if end_ ≤ start then 0
  else
    let e := end_ - 1
    if start >>> 14 = e >>> 14 then ((1 <<< 15) - 1) / 7 + (start >>> 14)
    else if start >>> 17 = e >>> 17 then ((1 <<< 12) - 1) / 7 + (start >>> 17)
    else if start >>> 20 = e >>> 20 then ((1 <<< 9) - 1) / 7 + (start >>> 20)
    else if start >>> 23 = e >>> 23 then ((1 <<< 6) - 1) / 7 + (start >>> 23)
    else if start >>> 26 = e >>> 26 then ((1 <<< 3) - 1) / 7 + (start >>> 26)
    else 0

/-- Modelled from the spec (section 4.3): `ChunkAggregator.add` appends the
chunk to its bin's list, creating the bin entry if absent. -/
def addChunkToBin : List (Nat × List Chunk) → Nat → Chunk → List (Nat × List Chunk)
  | [], b, c => [(b, [c])]
  | (b', cs) :: rest, b, c =>
      if b' = b then (b', cs ++ [c]) :: rest else (b', cs) :: addChunkToBin rest b c

/-- Modelled from the spec (section 4.4): the linear index window shift,
yielding 16384-base windows. -/
def linear_index_window_shift : Nat := 14

/-- Modelled from the spec (section 4.4): record an offset for a window only
if the window has no entry yet; otherwise the existing (earliest) value is
kept. -/
def setLinearEntry : List (Nat × Nat) → Nat → Nat → List (Nat × Nat)
  | [], w, off => [(w, off)]
  | (w', off') :: rest, w, off =>
      if w' = w then (w', off') :: rest
      else (w', off') :: setLinearEntry rest w off

/-- Modelled from the spec (section 4.5): on each record assigned to the
reference, bump `mapped_count` if the mapped flag is set, else
`unmapped_count`; track the minimum start offset and maximum end offset. -/
def Metadata.update (m : Metadata) (mapped : Bool) (c : Chunk) : Metadata :=
  { mapped_count := if mapped then m.mapped_count + 1 else m.mapped_count
    unmapped_count := if mapped then m.unmapped_count else m.unmapped_count + 1
    first_offset := some (match m.first_offset with
      | some f => min f c.start
      | none => c.start)
    last_offset := some (match m.last_offset with
      | some l => max l c.end_
      | none => c.end_) }

/-- Modelled from the spec (sections 4.3-4.5): the per-reference update for
one record with a full alignment context: chunk under `bin_of`, linear-index
entry for the start's window, and metadata counters. -/
def updateReference (s e : Nat) (mapped : Bool) (c : Chunk) (ref : ReferenceIndexState) :
    ReferenceIndexState :=
  { bins := addChunkToBin ref.bins (bin_of s e) c
    linear := setLinearEntry ref.linear (s >>> linear_index_window_shift) c.start
    metadata := ref.metadata.update mapped c }

/-- Modelled from the spec (sections 3 and 4.6): the streaming Indexer
state — one `ReferenceIndexState` per header-declared reference sequence
(the count is fixed at build start), plus the global unplaced counter. -/
structure Indexer where
  refCount : Nat
  refs : List ReferenceIndexState
  unplaced : Nat
deriving DecidableEq, Repr

/-- Modelled from the spec (section 3): the `GlobalIndex` is created once
per build with the reference count fixed from the header. -/
def Indexer.init (reference_sequence_count : Nat) : Indexer :=
  { refCount := reference_sequence_count
    refs := List.replicate reference_sequence_count ReferenceIndexState.empty
    unplaced := 0 }

/-- Pointwise update of the element at an index of a list; out-of-range
indices leave the list unchanged. -/
def updateAt {α : Type} : List α → Nat → (α → α) → List α
  | [], _, _ => []
  | x :: xs, 0, f => f x :: xs
  | x :: xs, i + 1, f => x :: updateAt xs i f

def invalid_reference_message : String := "invalid reference sequence ID"

/-- Modelled from the spec (section 4.6): `Indexer::add_record`.  With no
alignment context the global unplaced counter is incremented and no
reference is touched; with a full context whose reference id is out of the
header's declared range the fatal `InvalidReferenceError` is raised;
otherwise the reference's aggregators are updated. -/
def Indexer.add_record (ix : Indexer) (ctx : Option (Nat × Nat × Nat × Bool)) (chunk : Chunk) :
    Except String Indexer :=
  match ctx with
  | none => Except.ok { ix with unplaced := ix.unplaced + 1 }
  | some (id, s, e, mapped) =>
      if ix.refCount ≤ id then Except.error invalid_reference_message
      else Except.ok { ix with refs := updateAt ix.refs id (updateReference s e mapped chunk) }

/-- Insertion step of the chunk sort by start offset used at finalize. -/
def insertChunkSorted (c : Chunk) : List Chunk → List Chunk
  | [] => [c]
  | d :: rest => if c.start ≤ d.start then c :: d :: rest else d :: insertChunkSorted c rest

/-- Modelled from the spec (section 4.3): `finalize` sorts each bin's chunks
by start offset (merging is an optional size optimization and is omitted). -/
def sortChunks : List Chunk → List Chunk
  | [] => []
  | c :: rest => insertChunkSorted c (sortChunks rest)

def maxWindow : List (Nat × Nat) → Option Nat
  | [] => none
  | (w, _) :: rest =>
      match maxWindow rest with
      | none => some w
      | some m => some (max w m)

def lookupWindow (entries : List (Nat × Nat)) (w : Nat) : Option Nat :=
  match entries with
  | [] => none
  | (w', off) :: rest => if w' = w then some off else lookupWindow rest w

/-- Copy-forward fill of the linear index starting at a window, for a given
number of windows, carrying the last seen value. -/
def fillLinearFrom (entries : List (Nat × Nat)) : Nat → Nat → Nat → List Nat
  | _, 0, _ => []
  | w, n + 1, last =>
      let v := match lookupWindow entries w with
        | some off => off
        | none => last
      v :: fillLinearFrom entries (w + 1) n v

/-- Modelled from the spec (section 4.4): at finalize the linear index array
has length `max_observed_window + 1`, gaps filled by copy-forward; a
reference with zero records yields an empty array. -/
def finalizeLinear (entries : List (Nat × Nat)) : List Nat :=
  match maxWindow entries with
  | none => []
  | some m => fillLinearFrom entries 0 (m + 1) 0

/-- Modelled from the spec (section 3): a finalized, immutable reference
index. -/
structure FinalReference where
  bins : List (Nat × List Chunk)
  linear : List Nat
  metadata : Metadata
deriving DecidableEq, Repr

def ReferenceIndexState.finalize (ref : ReferenceIndexState) : FinalReference :=
  { bins := ref.bins.map (fun bc => (bc.1, sortChunks bc.2))
    linear := finalizeLinear ref.linear
    metadata := ref.metadata }

/-- Modelled from the spec (section 3): the finalized `GlobalIndex`: the
references in header order plus the global unplaced counter. -/
structure GlobalIndex where
  references : List FinalReference
  unplaced : Nat
deriving DecidableEq, Repr

def padRefs (refs : List ReferenceIndexState) (n : Nat) : List ReferenceIndexState :=
  refs.take n ++ List.replicate (n - refs.length) ReferenceIndexState.empty

/-- Modelled from the spec (section 4.6 Finalized): `Indexer::build` runs
finalize on every reference and produces the immutable `GlobalIndex`. -/
def Indexer.build (ix : Indexer) (reference_sequence_count : Nat) : GlobalIndex :=
  { references := (padRefs ix.refs reference_sequence_count).map ReferenceIndexState.finalize
    unplaced := ix.unplaced }

/-- One observable outcome of a `read_record` call on the stream: either a
successfully decoded record together with the reader's virtual position
after the read, or a read failure.  Normal end of stream (a read returning
0) is the end of the event list. -/
inductive ReadEvent where
  | read (record : AlignmentRecord) (pos_after : Nat)
  | fail (message : String)
deriving DecidableEq, Repr

def ReadEvent.isFail : ReadEvent → Bool
  | .read _ _ => false
  | .fail _ => true

def ReadEvent.posAfter? : ReadEvent → Option Nat
  | .read _ p => some p
  | .fail _ => none

/-- The input stream as `build_bam_index` observes it: the outcome of
`read_header().await?.parse()?`, the outcome of
`read_reference_sequences()`, the reader's virtual position after the
reference sequences, and the sequence of `read_record` outcomes. -/
structure BamStream where
  header_result : Except String Header
  reference_sequences_result : Except String Unit
  pos_after_reference_sequences : Nat
  events : List ReadEvent
deriving Repr

/-- Result of one execution of `build_bam_index`, instrumented with the
number of `read_record` calls made, whether `builder.build` (finalization)
ran, and the list of chunks passed to `add_record` in order. -/
structure BuildOutcome where
  result : Except String GlobalIndex
  read_record_calls : Nat
  finalized : Bool
  chunks : List Chunk
deriving Repr

def sort_order_error_message : String := "BAM file is not coordinate sorted"

/-- Embedded from `src/main.rs` lines 28-43: the `while read_record != 0`
loop.  End of the event list is the read returning 0 (one final call), after
which `builder.build` runs; a failing read or a failing `add_record`
propagates the error and never finalizes. -/
def buildLoop (ix : Indexer) (reference_sequence_count : Nat) (start_position : Nat) :
    List ReadEvent → BuildOutcome
  | [] =>
      { result := Except.ok (ix.build reference_sequence_count)
        read_record_calls := 1
        finalized := true
        chunks := [] }
  | ReadEvent.fail msg :: _ =>
      { result := Except.error msg
        read_record_calls := 1
        finalized := false
        chunks := [] }
  | ReadEvent.read record end_position :: rest =>
      let chunk : Chunk := { start := start_position, end_ := end_position }
      match ix.add_record (alignment_context record) chunk with
      | Except.error msg =>
          { result := Except.error msg
            read_record_calls := 1
            finalized := false
            chunks := [chunk] }
      | Except.ok ix' =>
          let tail := buildLoop ix' reference_sequence_count end_position rest
          { result := tail.result
            read_record_calls := tail.read_record_calls + 1
            finalized := tail.finalized
            chunks := chunk :: tail.chunks }

/-- Embedded from `src/main.rs` lines 18-46: read and parse the header, read
the reference sequences, reject a non-coordinate-sorted header, then run the
record loop from the virtual position reached after the reference
sequences.  The library `Indexer` is created for the header's declared
reference count (spec section 3) and `build` receives
`header.reference_sequences().len()` as in the source. -/
def build_bam_index (stream : BamStream) : BuildOutcome :=
  match stream.header_result with
  | Except.error msg =>
      { result := Except.error msg, read_record_calls := 0, finalized := false, chunks := [] }
  | Except.ok header =>
      match stream.reference_sequences_result with
      | Except.error msg =>
          { result := Except.error msg, read_record_calls := 0, finalized := false, chunks := [] }
      | Except.ok _ =>
          if !is_coordinate_sorted header then
            { result := Except.error sort_order_error_message
              read_record_calls := 0, finalized := false, chunks := [] }
          else
            buildLoop (Indexer.init header.reference_sequences_len)
              header.reference_sequences_len
              stream.pos_after_reference_sequences stream.events

/-- Little-endian byte encoding of a 32-bit integer. -/
def u32le (n : Nat) : List Nat :=
  [n % 256, n / 256 % 256, n / 65536 % 256, n / 16777216 % 256]

/-- Little-endian byte encoding of a 64-bit integer. -/
def u64le (n : Nat) : List Nat :=
  u32le (n % 4294967296) ++ u32le (n / 4294967296)

/-- Modelled from the spec (section 6): the magic bytes written by the BAI
writer's `write_header`. -/
def bai_magic : List Nat := [66, 65, 73, 1]

def insertBinSorted (b : Nat × List Chunk) : List (Nat × List Chunk) → List (Nat × List Chunk)
  | [] => [b]
  | b' :: rest => if b.1 ≤ b'.1 then b :: b' :: rest else b' :: insertBinSorted b rest

/-- Modelled from the spec (section 4.7): the serializer writes each
reference's bins sorted ascending by id. -/
def sortBinsById : List (Nat × List Chunk) → List (Nat × List Chunk)
  | [] => []
  | b :: rest => insertBinSorted b (sortBinsById rest)

def encodeChunk (c : Chunk) : List Nat := u64le c.start ++ u64le c.end_

def encodeBin (b : Nat × List Chunk) : List Nat :=
  u32le b.1 ++ u32le b.2.length ++ (b.2.map encodeChunk).flatten

/-- Modelled from the spec (section 6): one reference's binary layout: bin
count, bins, linear-index interval count, linear-index offsets. -/
def encodeReference (ref : FinalReference) : List Nat :=
  u32le (sortBinsById ref.bins).length ++ ((sortBinsById ref.bins).map encodeBin).flatten
    ++ u32le ref.linear.length ++ (ref.linear.map u64le).flatten

/-- Modelled from the spec (sections 4.7 and 6): the index body: reference
count, references in header order, trailing global unplaced count. -/
def write_index_bytes (index : GlobalIndex) : List Nat :=
  u32le index.references.length ++ (index.references.map encodeReference).flatten
    ++ u64le index.unplaced

/-- Embedded from `src/main.rs` lines 48-53: `write_bam_index` writes the
format header (magic bytes) and then the index body. -/
def write_bam_index (index : GlobalIndex) : List Nat :=
  bai_magic ++ write_index_bytes index

/-- Embedded from `src/main.rs` lines 77-80 (the success path of `handler`):
build the index from the stream and serialize it into a byte buffer; any
build error propagates. -/
def build_and_write (stream : BamStream) : Except String (List Nat) :=
  match (build_bam_index stream).result with
  | Except.ok index => Except.ok (write_bam_index index)
  | Except.error msg => Except.error msg

/-- Modelled from the spec: a parsed URL as `handler` and
`get_async_stream_reader` use it: its scheme string and its query pairs in
order. -/
structure Url where
  scheme : String
  query_pairs : List (String × String)
deriving DecidableEq, Repr

/-- Outcome of a Rust computation that can also panic: `ok` and `err` are
the two `Result` constructors, `panic` is an `unimplemented!`/`panic!`
unwind, which is not an error value. -/
inductive RustOutcome (α : Type) where
  | ok (value : α)
  | err (message : String)
  | panic (message : String)
deriving Repr

/-- Embedded from `src/main.rs` lines 55-68: for scheme `http` or `https`
the HTTP store is built and its byte stream returned (the store build and
the fetch are external and modelled by the `fetch` parameter, whose errors
surface as `err`); every other scheme hits `unimplemented!`, a panic rather
than a returned error. -/
def get_async_stream_reader (fetch : Url → Except String BamStream) (url : Url) :
    RustOutcome BamStream :=
  if url.scheme = "http" ∨ url.scheme = "https" then
    match fetch url with
    | Except.ok stream => RustOutcome.ok stream
    | Except.error msg => RustOutcome.err msg
  else
    RustOutcome.panic "Only HTTP(S) is supported"

/-- Response body: text or binary, as in `lambda_http::Body`. -/
inductive Body where
  | text (s : String)
  | binary (bytes : List Nat)
deriving DecidableEq, Repr

structure Response where
  status : Nat
  body : Body
deriving DecidableEq, Repr

/-- An incoming request, reduced to the URI string the handler inspects. -/
structure Request where
  uri : String
deriving DecidableEq, Repr

/-- Embedded from `src/main.rs` line 74: the handler picks the first query
pair whose key is `target`. -/
def find_target (url : Url) : Option (String × String) :=
  url.query_pairs.find? (fun pair => pair.1 == "target")

/-- Embedded from `src/main.rs` lines 70-93: parse the request URI (the
external `url::Url::parse` is the `parse_url` parameter), look for a
`target` query pair and parse its value; on the `Ok(Some(Ok(url)))` pattern
fetch the stream, build and serialize the index into a 200 response, and on
every other shape answer 400 with body "No URL provided".  Errors from the
fetch or the build propagate out of the handler; a scheme panic unwinds. -/
def handler (parse_url : String → Except String Url) (fetch : Url → Except String BamStream)
    (event : Request) : RustOutcome Response :=
  match (parse_url event.uri).map (fun url => (find_target url).map (fun pair => parse_url pair.2)) with
  | Except.ok (some (Except.ok url)) =>
      match get_async_stream_reader fetch url with
      | RustOutcome.panic msg => RustOutcome.panic msg
      | RustOutcome.err msg => RustOutcome.err msg
      | RustOutcome.ok stream =>
          match build_and_write stream with
          | Except.error msg => RustOutcome.err msg
          | Except.ok bytes => RustOutcome.ok { status := 200, body := Body.binary bytes }
  | _ => RustOutcome.ok { status := 400, body := Body.text "No URL provided" }

/-- Whether an `Except` result is a success. -/
def isOkE {α : Type} : Except String α → Bool
  | Except.ok _ => true
  | Except.error _ => false

/-- A stream whose records never get read: fetches used only as witnesses'
concrete parameter. -/
def ex_fetch : Url → Except String BamStream := fun _ => Except.error "unused"

theorem updateAt_getElem {α : Type} (l : List α) (i : Nat) (f : α → α) :
    (updateAt l i f)[i]? = (l[i]?).map f := by
  induction l generalizing i with
  | nil => simp [updateAt]
  | cons x xs ih =>
    cases i with
    | zero => simp [updateAt]
    | succ j => simp [updateAt, ih]

/-- Claim C1: for every input stream, if the parsed header does not declare
coordinate sort order, `build_bam_index` fails before any alignment record
is read from the stream; no `read_record` call occurs in that execution. -/
theorem c1_sort_order_rejected_before_any_read
    (stream : BamStream) (header : Header)
    (hh : stream.header_result = Except.ok header)
    (hs : is_coordinate_sorted header = false) :
    isOkE (build_bam_index stream).result = false ∧
    (build_bam_index stream).read_record_calls = 0 := by
  unfold build_bam_index
  rw [hh]
  cases hr : stream.reference_sequences_result with
  | error msg => exact ⟨rfl, rfl⟩
  | ok u => simp [hs, isOkE]

def c1_header : Header :=
  { header := some { sort_order := some SortOrder.unsorted }, reference_sequences_len := 1 }

def c1_stream : BamStream :=
  { header_result := Except.ok c1_header
    reference_sequences_result := Except.ok ()
    pos_after_reference_sequences := 0
    events := [ReadEvent.read
      { reference_sequence_id := none, alignment_start := none, alignment_end := none,
        is_unmapped := true } 5] }

theorem c1_witness :
    isOkE (build_bam_index c1_stream).result = false ∧
    (build_bam_index c1_stream).read_record_calls = 0 :=
  c1_sort_order_rejected_before_any_read c1_stream c1_header rfl rfl

/-- Claim C4: an alignment context is forwarded to the indexer if and only
if reference id, alignment start and alignment end are all present on the
record; otherwise the record is forwarded with no context and counts only
toward the global unplaced counter (no reference state is touched). -/
theorem c4_context_iff_fully_placed (r : AlignmentRecord) (ix : Indexer) (c : Chunk) :
    ((alignment_context r).isSome = true ↔
      r.reference_sequence_id.isSome = true ∧ r.alignment_start.isSome = true ∧
        r.alignment_end.isSome = true) ∧
    (alignment_context r = none →
      ix.add_record (alignment_context r) c =
        Except.ok { ix with unplaced := ix.unplaced + 1 }) := by
  constructor
  · obtain ⟨rid, rs, re, um⟩ := r
    cases rid <;> cases rs <;> cases re <;> simp [alignment_context]
  · intro hn
    rw [hn]
    rfl

def c4_record : AlignmentRecord :=
  { reference_sequence_id := some 0, alignment_start := none, alignment_end := some 7,
    is_unmapped := true }

theorem c4_witness :
    (Indexer.init 1).add_record (alignment_context c4_record) { start := 0, end_ := 7 } =
      Except.ok { Indexer.init 1 with unplaced := (Indexer.init 1).unplaced + 1 } :=
  (c4_context_iff_fully_placed c4_record (Indexer.init 1) { start := 0, end_ := 7 }).2 rfl

/-- Claim C6: building an index from the same input stream twice and
serializing each result yields byte-identical output; the composition of
`build_bam_index` and `write_bam_index` is a deterministic function of the
stream. -/
theorem c6_build_and_write_deterministic (s1 s2 : BamStream) (h : s1 = s2) :
    build_and_write s1 = build_and_write s2 := by
  rw [h]

def c6_stream : BamStream :=
  { header_result := Except.ok
      { header := some { sort_order := some SortOrder.coordinate }, reference_sequences_len := 1 }
    reference_sequences_result := Except.ok ()
    pos_after_reference_sequences := 4
    events := [ReadEvent.read
      { reference_sequence_id := some 0, alignment_start := some 100, alignment_end := some 200,
        is_unmapped := false } 54] }

theorem c6_witness : build_and_write c6_stream = build_and_write c6_stream :=
  c6_build_and_write_deterministic c6_stream c6_stream rfl

/-- Claim C7: for every record with a full alignment context the forwarded
mapped flag is the negation of the record's unmapped flag, and the
per-reference metadata increments `mapped_count` when that flag is set and
`unmapped_count` otherwise. -/
theorem c7_mapped_flag_forwarding (r : AlignmentRecord) (id s e : Nat) (m : Bool)
    (ix : Indexer) (c : Chunk) (ref : ReferenceIndexState)
    (hctx : alignment_context r = some (id, s, e, m))
    (hid : id < ix.refCount) (href : ix.refs[id]? = some ref) :
    m = !r.is_unmapped ∧
    ix.add_record (some (id, s, e, m)) c =
      Except.ok { ix with refs := updateAt ix.refs id (updateReference s e m c) } ∧
    (updateAt ix.refs id (updateReference s e m c))[id]? =
      some (updateReference s e m c ref) ∧
    (updateReference s e m c ref).metadata.mapped_count =
      ref.metadata.mapped_count + (if m then 1 else 0) ∧
    (updateReference s e m c ref).metadata.unmapped_count =
      ref.metadata.unmapped_count + (if m then 0 else 1) := by
  have hnle : ¬ ix.refCount ≤ id := Nat.not_le.mpr hid
  refine ⟨?_, ?_, ?_, ?_, ?_⟩
  · obtain ⟨rid, rs, re, um⟩ := r
    cases rid <;> cases rs <;> cases re <;> simp [alignment_context] at hctx
    show m = !um
    rw [hctx.2.2.2]
    simp
  · simp [Indexer.add_record, hnle]
  · rw [updateAt_getElem, href]
    rfl
  · cases m <;> simp [updateReference, Metadata.update]
  · cases m <;> simp [updateReference, Metadata.update]

def c7_record : AlignmentRecord :=
  { reference_sequence_id := some 0, alignment_start := some 100, alignment_end := some 200,
    is_unmapped := false }

theorem c7_witness :
    Metadata.mapped_count
        (ReferenceIndexState.metadata
          (updateReference 100 200 true { start := 4, end_ := 54 } ReferenceIndexState.empty)) =
      ReferenceIndexState.empty.metadata.mapped_count + (if true then 1 else 0) :=
  (c7_mapped_flag_forwarding c7_record 0 100 200 true (Indexer.init 1)
    { start := 4, end_ := 54 } ReferenceIndexState.empty rfl (by decide) rfl).2.2.2.1

/-- Claim C10: for every target URL whose scheme is neither `http` nor
`https`, `get_async_stream_reader` panics via `unimplemented!` rather than
returning an error value, so it is not total over its input URLs. -/
theorem c10_non_http_scheme_panics (fetch : Url → Except String BamStream) (url : Url)
    (h1 : url.scheme ≠ "http") (h2 : url.scheme ≠ "https") :
    get_async_stream_reader fetch url = RustOutcome.panic "Only HTTP(S) is supported" ∧
    ∀ msg, get_async_stream_reader fetch url ≠ RustOutcome.err msg := by
  have hcond : ¬ (url.scheme = "http" ∨ url.scheme = "https") := by
    rintro (h | h)
    · exact h1 h
    · exact h2 h
  constructor
  · simp [get_async_stream_reader, hcond]
  · intro msg
    simp [get_async_stream_reader, hcond]

theorem c10_witness :
    get_async_stream_reader ex_fetch { scheme := "ftp", query_pairs := [] } =
      RustOutcome.panic "Only HTTP(S) is supported" :=
  (c10_non_http_scheme_panics ex_fetch { scheme := "ftp", query_pairs := [] }
    (by decide) (by decide)).1

/-- Claim C9: for every request whose URI parses to a URL with no `target`
query pair, or whose first `target` value does not itself parse as a URL,
the handler answers 400 with body "No URL provided", and the response does
not depend on the fetch-and-build collaborator (nothing is fetched or
built). -/
theorem c9_missing_or_bad_target_yields_400
    (parse_url : String → Except String Url)
    (fetch1 fetch2 : Url → Except String BamStream)
    (event : Request) (u : Url)
    (hp : parse_url event.uri = Except.ok u)
    (hcase : find_target u = none ∨
      ∃ k v msg, find_target u = some (k, v) ∧ parse_url v = Except.error msg) :
    handler parse_url fetch1 event =
      RustOutcome.ok { status := 400, body := Body.text "No URL provided" } ∧
    handler parse_url fetch1 event = handler parse_url fetch2 event := by
  have hall : ∀ fetch : Url → Except String BamStream,
      handler parse_url fetch event =
        RustOutcome.ok { status := 400, body := Body.text "No URL provided" } := by
    intro fetch
    unfold handler
    rw [hp]
    rcases hcase with hn | ⟨k, v, msg, hf, hv⟩
    · simp [Except.map, hn]
    · simp [Except.map, hf, hv]
  exact ⟨hall fetch1, (hall fetch1).trans (hall fetch2).symm⟩

def c9_parse : String → Except String Url := fun s =>
  if s = "/index?other=1" then
    Except.ok { scheme := "https", query_pairs := [("other", "1")] }
  else Except.error "relative URL without a base"

theorem c9_witness :
    handler c9_parse ex_fetch { uri := "/index?other=1" } =
      RustOutcome.ok { status := 400, body := Body.text "No URL provided" } :=
  (c9_missing_or_bad_target_yields_400 c9_parse ex_fetch ex_fetch { uri := "/index?other=1" }
    { scheme := "https", query_pairs := [("other", "1")] } rfl (Or.inl rfl)).1

def c2_stream : BamStream :=
  { header_result := Except.ok
      { header := some { sort_order := some SortOrder.coordinate }, reference_sequences_len := 1 }
    reference_sequences_result := Except.ok ()
    pos_after_reference_sequences := 0
    events := [ReadEvent.read
      { reference_sequence_id := some 5, alignment_start := none, alignment_end := none,
        is_unmapped := true } 10] }

/-- Claim C2 counterexample: a record whose reference id 5 is present and
out of the declared range (one reference) but whose alignment start and end
are absent is forwarded with no context, so the build succeeds and
finalizes, counting the record as unplaced, instead of raising a fatal
error. -/
theorem c2_counterexample :
    isOkE (build_bam_index c2_stream).result = true ∧
    (build_bam_index c2_stream).finalized = true := by
  constructor
  · rfl
  · rfl

/-- Claim C2 (amended): for every record whose reference id, alignment
start and alignment end are all present and whose reference id is out of
the header's declared range, `add_record` raises the fatal invalid
reference error when the record is ingested and the build loop aborts at
that record without finalizing; a record with an out-of-range reference id
but missing start or end is instead forwarded with no context. -/
theorem c2_out_of_range_full_context_aborts
    (ix : Indexer) (id s e : Nat) (m : Bool)
    (n p q : Nat) (r : AlignmentRecord) (rest : List ReadEvent)
    (hid : ix.refCount ≤ id)
    (hctx : alignment_context r = some (id, s, e, m)) :
    (∀ ch, ix.add_record (alignment_context r) ch = Except.error invalid_reference_message) ∧
    (buildLoop ix n p (ReadEvent.read r q :: rest)).result =
      Except.error invalid_reference_message ∧
    (buildLoop ix n p (ReadEvent.read r q :: rest)).finalized = false := by
  have hadd : ∀ ch, ix.add_record (alignment_context r) ch =
      Except.error invalid_reference_message := by
    intro ch
    rw [hctx]
    simp [Indexer.add_record, hid]
  refine ⟨hadd, ?_, ?_⟩
  · simp [buildLoop, hadd]
  · simp [buildLoop, hadd]

def c2_bad_record : AlignmentRecord :=
  { reference_sequence_id := some 5, alignment_start := some 1, alignment_end := some 2,
    is_unmapped := false }

theorem c2_witness :
    (buildLoop (Indexer.init 1) 1 0 [ReadEvent.read c2_bad_record 10]).result =
      Except.error invalid_reference_message :=
  (c2_out_of_range_full_context_aborts (Indexer.init 1) 5 1 2 true 1 0 10 c2_bad_record []
    (by decide) rfl).2.1

theorem buildLoop_finalized_iff_clean (evs : List ReadEvent) :
    ∀ (ix : Indexer) (n p : Nat),
      ((buildLoop ix n p evs).finalized = true →
        (∀ ev ∈ evs, ev.isFail = false) ∧ isOkE (buildLoop ix n p evs).result = true) ∧
      ((∃ ev ∈ evs, ev.isFail = true) →
        (buildLoop ix n p evs).finalized = false ∧
          isOkE (buildLoop ix n p evs).result = false) := by
  induction evs with
  | nil =>
    intro ix n p
    constructor
    · intro _
      exact ⟨by simp, rfl⟩
    · rintro ⟨ev, hmem, _⟩
      cases hmem
  | cons ev rest ih =>
    intro ix n p
    cases ev with
    | fail msg =>
      constructor
      · intro hfin
        simp [buildLoop] at hfin
      · intro _
        exact ⟨rfl, rfl⟩
    | read r q =>
      cases hadd : Indexer.add_record ix (alignment_context r) { start := p, end_ := q } with
      | error msg =>
        constructor
        · intro hfin
          simp [buildLoop, hadd] at hfin
        · intro _
          constructor
          · simp [buildLoop, hadd]
          · simp [buildLoop, hadd, isOkE]
      | ok ix' =>
        have ihq := ih ix' n q
        have hres : (buildLoop ix n p (ReadEvent.read r q :: rest)).result =
            (buildLoop ix' n q rest).result := by
          simp [buildLoop, hadd]
        have hfin : (buildLoop ix n p (ReadEvent.read r q :: rest)).finalized =
            (buildLoop ix' n q rest).finalized := by
          simp [buildLoop, hadd]
        constructor
        · intro h
          rw [hfin] at h
          obtain ⟨hall, hok⟩ := ihq.1 h
          refine ⟨?_, ?_⟩
          · intro e he
            rcases List.mem_cons.mp he with he | he
            · rw [he]
              rfl
            · exact hall e he
          · rw [hres]
            exact hok
        · rintro ⟨e, he, hef⟩
          rcases List.mem_cons.mp he with he | he
          · rw [he] at hef
            simp [ReadEvent.isFail] at hef
          · have hrest := ihq.2 ⟨e, he, hef⟩
            rw [hfin, hres]
            exact hrest

/-- Claim C3: finalization (`builder.build`) runs only when every
`read_record` call succeeded and the final one returned 0 (the event list
was consumed to its end); if any read of the stream fails, the build
returns an error and never finalizes. -/
theorem c3_finalize_only_after_clean_end (stream : BamStream) :
    ((build_bam_index stream).finalized = true →
      (∀ ev ∈ stream.events, ev.isFail = false) ∧
        isOkE (build_bam_index stream).result = true) ∧
    ((∃ ev ∈ stream.events, ev.isFail = true) →
      (build_bam_index stream).finalized = false ∧
        isOkE (build_bam_index stream).result = false) := by
  unfold build_bam_index
  cases hh : stream.header_result with
  | error msg =>
    constructor
    · intro hfin
      simp at hfin
    · intro _
      exact ⟨rfl, rfl⟩
  | ok header =>
    cases hr : stream.reference_sequences_result with
    | error msg =>
      constructor
      · intro hfin
        simp at hfin
      · intro _
        exact ⟨rfl, rfl⟩
    | ok u =>
      by_cases hs : is_coordinate_sorted header
      · simpa [hs] using
          buildLoop_finalized_iff_clean stream.events
            (Indexer.init header.reference_sequences_len) header.reference_sequences_len
            stream.pos_after_reference_sequences
      · constructor
        · intro hfin
          simp [hs] at hfin
        · intro _
          simp [hs, isOkE]

def c3_stream : BamStream :=
  { header_result := Except.ok
      { header := some { sort_order := some SortOrder.coordinate }, reference_sequences_len := 1 }
    reference_sequences_result := Except.ok ()
    pos_after_reference_sequences := 0
    events := [ReadEvent.fail "unexpected end of file"] }

theorem c3_witness :
    (build_bam_index c3_stream).finalized = false ∧
    isOkE (build_bam_index c3_stream).result = false :=
  (c3_finalize_only_after_clean_end c3_stream).2
    ⟨ReadEvent.fail "unexpected end of file", by simp [c3_stream], rfl⟩

theorem buildLoop_chunk_spec (evs : List ReadEvent) :
    ∀ (ix : Indexer) (n p : Nat),
      (∀ c : Chunk, ((buildLoop ix n p evs).chunks)[0]? = some c → c.start = p) ∧
      (∀ (i : Nat) (c : Chunk), ((buildLoop ix n p evs).chunks)[i]? = some c →
        ∃ r, evs[i]? = some (ReadEvent.read r c.end_)) ∧
      (∀ (i : Nat) (c c' : Chunk), ((buildLoop ix n p evs).chunks)[i]? = some c →
        ((buildLoop ix n p evs).chunks)[i + 1]? = some c' → c'.start = c.end_) := by
  induction evs with
  | nil =>
    intro ix n p
    refine ⟨?_, ?_, ?_⟩ <;> intros <;> simp_all [buildLoop]
  | cons ev rest ih =>
    intro ix n p
    cases ev with
    | fail msg =>
      refine ⟨?_, ?_, ?_⟩ <;> intros <;> simp_all [buildLoop]
    | read r q =>
      cases hadd : Indexer.add_record ix (alignment_context r) { start := p, end_ := q } with
      | error msg =>
        have hch : (buildLoop ix n p (ReadEvent.read r q :: rest)).chunks =
            [{ start := p, end_ := q }] := by
          simp [buildLoop, hadd]
        refine ⟨?_, ?_, ?_⟩
        · intro c hc
          rw [hch] at hc
          simp at hc
          rw [← hc]
        · intro i c hc
          rw [hch] at hc
          cases i with
          | zero =>
            simp at hc
            exact ⟨r, by rw [← hc]; simp⟩
          | succ j =>
            simp at hc
        · intro i c c' hc hc'
          rw [hch] at hc'
          cases i with
          | zero => simp at hc'
          | succ j => simp at hc'
      | ok ix' =>
        obtain ⟨ih1, ih2, ih3⟩ := ih ix' n q
        have hch : (buildLoop ix n p (ReadEvent.read r q :: rest)).chunks =
            { start := p, end_ := q } :: (buildLoop ix' n q rest).chunks := by
          simp [buildLoop, hadd]
        refine ⟨?_, ?_, ?_⟩
        · intro c hc
          rw [hch] at hc
          simp at hc
          rw [← hc]
        · intro i c hc
          rw [hch] at hc
          cases i with
          | zero =>
            simp at hc
            exact ⟨r, by rw [← hc]; simp⟩
          | succ j =>
            simp at hc
            obtain ⟨r', hr'⟩ := ih2 j c hc
            exact ⟨r', by simpa using hr'⟩
        · intro i c c' hc hc'
          rw [hch] at hc hc'
          cases i with
          | zero =>
            simp at hc hc'
            have := ih1 c' hc'
            rw [this, ← hc]
          | succ j =>
            simp at hc hc'
            exact ih3 j c c' hc hc'

/-- Claim C5: every chunk passed to the indexer is the pair of virtual
positions before and after reading its record (its end is the position the
i-th read reached), consecutive chunks abut exactly, and the first chunk
starts at the position reached after the reference sequences. -/
theorem c5_chunks_abut_and_bound_records (stream : BamStream) :
    (∀ c : Chunk, ((build_bam_index stream).chunks)[0]? = some c →
      c.start = stream.pos_after_reference_sequences) ∧
    (∀ (i : Nat) (c : Chunk), ((build_bam_index stream).chunks)[i]? = some c →
      ∃ r, stream.events[i]? = some (ReadEvent.read r c.end_)) ∧
    (∀ (i : Nat) (c c' : Chunk), ((build_bam_index stream).chunks)[i]? = some c →
      ((build_bam_index stream).chunks)[i + 1]? = some c' → c'.start = c.end_) := by
  unfold build_bam_index
  cases hh : stream.header_result with
  | error msg => refine ⟨?_, ?_, ?_⟩ <;> intros <;> simp_all
  | ok header =>
    cases hr : stream.reference_sequences_result with
    | error msg => refine ⟨?_, ?_, ?_⟩ <;> intros <;> simp_all
    | ok u =>
      by_cases hs : is_coordinate_sorted header
      · simpa [hs] using
          buildLoop_chunk_spec stream.events (Indexer.init header.reference_sequences_len)
            header.reference_sequences_len stream.pos_after_reference_sequences
      · refine ⟨?_, ?_, ?_⟩ <;> intros <;> simp_all [hs]

def c5_stream : BamStream :=
  { header_result := Except.ok
      { header := some { sort_order := some SortOrder.coordinate }, reference_sequences_len := 1 }
    reference_sequences_result := Except.ok ()
    pos_after_reference_sequences := 4
    events :=
      [ReadEvent.read
        { reference_sequence_id := some 0, alignment_start := some 100, alignment_end := some 200,
          is_unmapped := false } 10,
       ReadEvent.read
        { reference_sequence_id := some 0, alignment_start := some 300, alignment_end := some 400,
          is_unmapped := false } 20] }

theorem c5_witness :
    ∃ r, c5_stream.events[1]? = some (ReadEvent.read r (Chunk.end_ { start := 10, end_ := 20 })) :=
  (c5_chunks_abut_and_bound_records c5_stream).2.1 1 { start := 10, end_ := 20 } rfl

/-- Claim C8: a header with no header record, or one whose sort-order field
is absent, makes `is_coordinate_sorted` return false, and the build then
fails with the same sort-order error as a header declaring a non-coordinate
order; `is_coordinate_sorted` is true exactly when a coordinate order is
explicitly declared. -/
theorem c8_only_explicit_coordinate_accepted (stream : BamStream) (h : Header) :
    ((h.header = none ∨ ∃ hd, h.header = some hd ∧ hd.sort_order = none) →
      is_coordinate_sorted h = false) ∧
    (is_coordinate_sorted h = false → stream.header_result = Except.ok h →
      stream.reference_sequences_result = Except.ok () →
      (build_bam_index stream).result = Except.error sort_order_error_message) ∧
    (is_coordinate_sorted h = true ↔
      h.header.bind HeaderRecord.sort_order = some SortOrder.coordinate) := by
  refine ⟨?_, ?_, ?_⟩
  · rintro (hn | ⟨hd, hhd, hso⟩)
    · simp [is_coordinate_sorted, hn]
    · simp [is_coordinate_sorted, hhd, hso]
  · intro hs hh hr
    unfold build_bam_index
    rw [hh, hr]
    simp [hs]
  · unfold is_coordinate_sorted
    cases hh : h.header with
    | none => simp
    | some hd =>
      cases hso : hd.sort_order with
      | none => simp [hso]
      | some so =>
        cases so <;> simp [hso]

def c8_header : Header :=
  { header := some { sort_order := none }, reference_sequences_len := 2 }

def c8_stream : BamStream :=
  { header_result := Except.ok c8_header
    reference_sequences_result := Except.ok ()
    pos_after_reference_sequences := 0
    events := [] }

theorem c8_witness :
    (build_bam_index c8_stream).result = Except.error sort_order_error_message :=
  (c8_only_explicit_coordinate_accepted c8_stream c8_header).2.1 rfl rfl rfl

end StreamIndex
